import Mathlib

/-!
Verification of the wasmup proxy plugin (src/src/lib.rs).

The plugin is a proxy-wasm HTTP filter with two zero-sized context types:
`Root` (the root context, whose `create_http_context` manufactures a fresh
`Filter` per HTTP stream) and `Filter` (the per-exchange context, whose
`on_http_response_headers` issues one host-call setting the response header
`x-wasm-custom: FOO` and returns `Action::Continue`).

The host side is embedded as an explicit state `Host` carrying the current
exchange's response header table, an oracle describing whether the set-header
host-call succeeds or fails (and with which status code), and the trace of
outbound host-calls issued so far.  Rust's `&mut self` receivers are threaded
explicitly; the fallible host-call returns an `Except` value that the plugin
discards, mirroring `let _ = ...` in the source.
-/

namespace Wasmup

/-- The `proxy_wasm::types::Action` values an HTTP callback may return. -/
inductive Action where
  | Continue
  | Pause
  deriving DecidableEq, Repr

/-- One outbound host-call record: a `set_http_response_header(name, value)`
request as issued by the plugin (`value = none` would ask for removal). -/
structure HostCall where
  name : String
  value : Option String
  deriving DecidableEq, Repr

/-- Modelled from the spec: the host ABI's set-semantics for the response
header table, which is not part of this repository's sources.  The spec says
the host-call must "set a header named `x-wasm-custom` to the literal value
`FOO`, overwriting any existing value for that name (set semantics, not
append)": every existing entry under `name` is removed, then the new pair is
appended when a value is supplied. -/
def setHeader (t : List (String × String)) (name : String) (value : Option String) :
    List (String × String) :=
  let t' := t.filter (fun p => p.1 != name)
  match value with
  | some v => t' ++ [(name, v)]
  | none => t'

/-- The host-side state visible to the plugin: the response header table of
the current exchange, an oracle `setResult` fixing the outcome of the next
set-header host-call (`none` = success, `some code` = failure with that
status code), and the trace of host-calls the plugin has issued. -/
structure Host where
  responseHeaders : List (String × String)
  setResult : Option Nat
  calls : List HostCall
  deriving DecidableEq, Repr

/-- The host's implementation of `proxy_wasm::hostcalls::set_http_response_header`:
records the outbound call, then either fails with the oracle's status code
(leaving the header table untouched) or applies the set-semantics and
succeeds. -/
def Host.set_http_response_header (h : Host) (name : String) (value : Option String) :
    Host × Except Nat Unit :=
  match h.setResult with
  | some code =>
      ({ h with calls := h.calls ++ [⟨name, value⟩] }, Except.error code)
  | none =>
      ({ h with
          responseHeaders := setHeader h.responseHeaders name value,
          calls := h.calls ++ [⟨name, value⟩] }, Except.ok ())

/-- `struct Root;` — the root context, a zero-sized type. -/
structure Root where
  deriving DecidableEq, Repr

/-- `struct Filter;` — the per-exchange HTTP context, a zero-sized type. -/
structure Filter where
  deriving DecidableEq, Repr

/-- Embeds `Root::create_http_context` (src/src/lib.rs lines 7-9): ignores the
stream id and unconditionally returns `Some(Box::new(Filter))`.  The `&self`
receiver is read-only and `Root` has no fields, so no state is threaded. -/
def Root.create_http_context (_r : Root) (_id : Nat) : Option Filter :=
  some ⟨⟩

/-- Embeds `Filter::on_http_response_headers` (src/src/lib.rs lines 15-19):
issues the single host-call
`set_http_response_header("x-wasm-custom", Some("FOO"))`, discards its result
(`let _ = ...` in the source), and returns `Action::Continue`.  The `&mut self`
receiver is threaded explicitly; `Filter` has no fields to mutate. -/
def Filter.on_http_response_headers (f : Filter) (h : Host) (_num : Nat) (_eos : Bool) :
    Filter × Host × Action :=
  let hr := h.set_http_response_header ("x-wasm-custom") (some "FOO")
  (f, hr.1, Action.Continue)

/-- The host-call record the reaction issues. -/
def theSetCall : HostCall := ⟨"x-wasm-custom", some "FOO"⟩

end Wasmup

namespace Wasmup

theorem filter_setHeader_self (t : List (String × String)) (n v : String) :
    (setHeader t n (some v)).filter (fun p => p.1 == n) = [(n, v)] := by
  simp [setHeader, List.filter_append, List.filter_filter]

theorem filter_setHeader_other (t : List (String × String)) (n m : String) (v : String)
    (hne : m ≠ n) :
    (setHeader t n (some v)).filter (fun p => p.1 == m) = t.filter (fun p => p.1 == m) := by
  have key : ∀ p : String × String, ((p.1 == m) && (p.1 != n)) = (p.1 == m) := by
    intro p
    by_cases hp : p.1 = m
    · subst hp; simp [hne]
    · simp [hp]
  simp [setHeader, List.filter_append, List.filter_filter, key, Ne.symm hne]

theorem setHeader_idem (t : List (String × String)) (n v : String) :
    setHeader (setHeader t n (some v)) n (some v) = setHeader t n (some v) := by
  simp [setHeader, List.filter_append, List.filter_filter]

/-- C1: every invocation of the response-headers reaction issues exactly one
outbound host-call, namely "set response header `x-wasm-custom` to `FOO`" for
the current exchange, and no other: the host-call trace is extended by exactly
the one record `theSetCall`, whatever the inputs and whether the call succeeds
or fails. -/
theorem c1_single_set_call (f : Filter) (h : Host) (num : Nat) (eos : Bool) :
    (f.on_http_response_headers h num eos).2.1.calls = h.calls ++ [theSetCall] := by
  cases hs : h.setResult <;>
    simp [Filter.on_http_response_headers, Host.set_http_response_header, theSetCall, hs]

/-- C2: the response-headers reaction returns `Continue` for every pair of
inputs (header count, end-of-stream flag) and every host state; it never
returns `Pause` or any error signal. -/
theorem c2_always_continue (f : Filter) (h : Host) (num : Nat) (eos : Bool) :
    (f.on_http_response_headers h num eos).2.2 = Action.Continue := rfl

/-- C3: if the host-call to set the response header fails — with any status
code whatsoever — the result is discarded: the reaction still returns
`Continue`, the plugin's own state is unchanged, and nothing propagates to the
host (the failed call leaves the header table untouched and the reaction exits
normally). -/
theorem c3_failure_discarded (f : Filter) (h : Host) (num : Nat) (eos : Bool)
    (code : Nat) (hfail : h.setResult = some code) :
    (f.on_http_response_headers h num eos).2.2 = Action.Continue ∧
    (f.on_http_response_headers h num eos).1 = f ∧
    (f.on_http_response_headers h num eos).2.1.responseHeaders = h.responseHeaders := by
  refine ⟨rfl, rfl, ?_⟩
  simp [Filter.on_http_response_headers, Host.set_http_response_header, hfail]

theorem c3_failure_discarded_witness :
    (Filter.mk.on_http_response_headers ⟨[("a", "b")], some 10, []⟩ 1 true).2.2 =
        Action.Continue ∧
    (Filter.mk.on_http_response_headers ⟨[("a", "b")], some 10, []⟩ 1 true).1 = Filter.mk ∧
    (Filter.mk.on_http_response_headers
        ⟨[("a", "b")], some 10, []⟩ 1 true).2.1.responseHeaders = [("a", "b")] :=
  c3_failure_discarded ⟨⟩ ⟨[("a", "b")], some 10, []⟩ 1 true 10 rfl

/-- C4: if the response header table already contains `x-wasm-custom` with some
other value and the host-call succeeds, then afterwards the table's entries
under the name `x-wasm-custom` are exactly the single pair
`("x-wasm-custom", "FOO")`: the prior value is replaced, not appended to or
duplicated. -/
theorem c4_overwrite (f : Filter) (h : Host) (num : Nat) (eos : Bool) (v : String)
    (hmem : ("x-wasm-custom", v) ∈ h.responseHeaders) (hne : v ≠ "FOO")
    (hok : h.setResult = none) :
    (f.on_http_response_headers h num eos).2.1.responseHeaders.filter
      (fun p => p.1 == "x-wasm-custom") = [("x-wasm-custom", "FOO")] := by
  simp [Filter.on_http_response_headers, Host.set_http_response_header, hok,
    filter_setHeader_self]

theorem c4_overwrite_witness :
    (Filter.mk.on_http_response_headers
        ⟨[("x-wasm-custom", "BAR")], none, []⟩ 3 false).2.1.responseHeaders.filter
      (fun p => p.1 == "x-wasm-custom") = [("x-wasm-custom", "FOO")] :=
  c4_overwrite ⟨⟩ ⟨[("x-wasm-custom", "BAR")], none, []⟩ 3 false ("BAR")
    (by simp) (by decide) rfl

/-- C5: for every stream identifier, `create_http_context` succeeds and returns
a newly constructed `Filter` context: the result is `some Filter.mk` (never
`none`), with no error branch and no side effect (the embedding touches no
host state). -/
theorem c5_create_infallible (r : Root) (id : Nat) :
    r.create_http_context id = some Filter.mk ∧ (r.create_http_context id).isSome :=
  ⟨rfl, rfl⟩

/-- C6: the reaction mutates only the `x-wasm-custom` entry of the current
exchange's response header table: (a) the entries under every other name are
unchanged; (b) a table with zero pre-existing headers ends up (on success)
holding exactly the one injected header; and (c) the plugin never reads the
table — the returned context, the returned action and the host-call trace are
the same whatever the table's prior contents. -/
theorem c6_frame (f : Filter) (h : Host) (num : Nat) (eos : Bool) :
    (∀ name : String, name ≠ "x-wasm-custom" →
        (f.on_http_response_headers h num eos).2.1.responseHeaders.filter
            (fun p => p.1 == name) =
          h.responseHeaders.filter (fun p => p.1 == name)) ∧
    (h.responseHeaders = [] → h.setResult = none →
        (f.on_http_response_headers h num eos).2.1.responseHeaders =
          [("x-wasm-custom", "FOO")]) ∧
    (∀ t : List (String × String),
        (f.on_http_response_headers { h with responseHeaders := t } num eos).1 = f ∧
        (f.on_http_response_headers { h with responseHeaders := t } num eos).2.2 =
          (f.on_http_response_headers h num eos).2.2 ∧
        (f.on_http_response_headers { h with responseHeaders := t } num eos).2.1.calls =
          (f.on_http_response_headers h num eos).2.1.calls) := by
  refine ⟨?_, ?_, ?_⟩
  · intro name hname
    cases hs : h.setResult <;>
      simp [Filter.on_http_response_headers, Host.set_http_response_header, hs,
        filter_setHeader_other _ _ _ _ hname]
  · intro ht hok
    simp [Filter.on_http_response_headers, Host.set_http_response_header, hok, ht, setHeader]
  · intro t
    refine ⟨rfl, rfl, ?_⟩
    cases hs : h.setResult <;>
      simp [Filter.on_http_response_headers, Host.set_http_response_header, hs]

theorem c6_frame_witness :
    (Filter.mk.on_http_response_headers
        ⟨[("other", "v")], none, []⟩ 1 false).2.1.responseHeaders.filter
        (fun p => p.1 == "other") = [("other", "v")] ∧
    (Filter.mk.on_http_response_headers ⟨[], none, []⟩ 0 false).2.1.responseHeaders =
      [("x-wasm-custom", "FOO")] :=
  ⟨(c6_frame ⟨⟩ ⟨[("other", "v")], none, []⟩ 1 false).1 ("other") (by decide),
   (c6_frame ⟨⟩ ⟨[], none, []⟩ 0 false).2.1 rfl rfl⟩

/-- C7: the reaction's behavior is independent of its inputs: any two
invocations on the same context and host state but with different
(header count, end-of-stream) pairs produce identical results — the same
returned context, the same host state (hence the same host-call) and the same
`Continue` action. -/
theorem c7_input_independent (f : Filter) (h : Host) (n1 n2 : Nat) (e1 e2 : Bool) :
    f.on_http_response_headers h n1 e1 = f.on_http_response_headers h n2 e2 := rfl

/-- C8: both context types are stateless: `Root` and `Filter` carry no
attributes (any two values of each type are equal), the reaction returns its
context unchanged, and `create_http_context` returns the same fresh `Filter`
regardless of the root it is called on — so no state is carried across
exchanges or shared between instances. -/
theorem c8_stateless :
    (∀ r1 r2 : Root, r1 = r2) ∧ (∀ f1 f2 : Filter, f1 = f2) ∧
    (∀ (f : Filter) (h : Host) (num : Nat) (eos : Bool),
        (f.on_http_response_headers h num eos).1 = f) ∧
    (∀ (r : Root) (id : Nat), r.create_http_context id = some Filter.mk) :=
  ⟨fun r1 r2 => by cases r1; cases r2; rfl,
   fun f1 f2 => by cases f1; cases f2; rfl,
   fun _ _ _ _ => rfl,
   fun _ _ => rfl⟩

/-- C9: the reaction is idempotent on the header table: running it a second
time (with the host-call succeeding) leaves the response header table exactly
as a single run left it — the set-semantics make the second application a
no-op on the table. -/
theorem c9_idempotent (f f' : Filter) (h : Host) (n1 n2 : Nat) (e1 e2 : Bool)
    (hok : h.setResult = none) :
    (f'.on_http_response_headers
        (f.on_http_response_headers h n1 e1).2.1 n2 e2).2.1.responseHeaders =
      (f.on_http_response_headers h n1 e1).2.1.responseHeaders := by
  simp [Filter.on_http_response_headers, Host.set_http_response_header, hok, setHeader_idem]

theorem c9_idempotent_witness :
    (Filter.mk.on_http_response_headers
        (Filter.mk.on_http_response_headers
          ⟨[("x-wasm-custom", "BAR"), ("k", "w")], none, []⟩ 2 false).2.1
        2 true).2.1.responseHeaders =
      (Filter.mk.on_http_response_headers
        ⟨[("x-wasm-custom", "BAR"), ("k", "w")], none, []⟩ 2 false).2.1.responseHeaders :=
  c9_idempotent ⟨⟩ ⟨⟩ ⟨[("x-wasm-custom", "BAR"), ("k", "w")], none, []⟩ 2 2 false true rfl

/-- C10: `create_http_context` is a constant function of the stream
identifier: any two stream identifiers yield identical results (the same
zero-sized `Filter`) — the identifier is ignored entirely. -/
theorem c10_id_ignored (r : Root) (id1 id2 : Nat) :
    r.create_http_context id1 = r.create_http_context id2 := rfl

end Wasmup
